import Mathlib

/-!
Shallow embedding of the data pipeline of `src/dashboard.py` (a pandas /
streamlit climate dashboard).  Tables are lists of records; pandas float
columns that can hold NaN are modelled as `Option` values (`none` = NaN),
and every comparison against NaN is `false`, as in pandas.
-/

namespace Dashboard

/-- The fixed metadata columns of the raw table: the `id_vars` of the
`pd.melt` call on lines 21-22 of `dashboard.py`. -/
structure Meta where
  objectId : String
  country : String
  iso2 : String
  iso3 : String
  indicator : String
  unit : String
  source : String
  cts_code : String
  cts_name : String
  cts_full_descriptor : String
deriving DecidableEq

/-- One row of the wide-format table: the metadata columns plus one raw
text cell per value (year) column, aligned with `WideTable.valueCols`. -/
structure RawRecord where
  meta : Meta
  cells : List String
deriving DecidableEq

/-- The wide-format table read by `pd.read_csv` (line 14): the list of
value-column labels and the list of rows. -/
structure WideTable where
  valueCols : List String
  rows : List RawRecord
deriving DecidableEq

/-- A melted row straight out of `pd.melt` (lines 21-22): the `Year`
column still holds the source column label, the value is still raw text. -/
structure ObsRaw where
  meta : Meta
  yearLabel : String
  rawValue : String
deriving DecidableEq

/-- A melted row after line 25 (`Year` coerced): `year = none` models the
NaN that `.str.extract` + `.astype(float)` produce for a label with no
digit run. -/
structure ObsY where
  meta : Meta
  year : Option Nat
  rawValue : String
deriving DecidableEq

/-- An Observation after line 28: both `Year` and `Temperature Change`
coerced; `none` models NaN. -/
structure Obs where
  meta : Meta
  year : Option Nat
  temp : Option ℚ
deriving DecidableEq

/-- One column block of `pd.melt`: for the value column with label
`label` at position `j`, one melted row per raw record. -/
def meltCol (label : String) (j : Nat) (rows : List RawRecord) : List ObsRaw :=
  rows.filterMap (fun r => (r.cells[j]?).map (fun cell => ⟨r.meta, label, cell⟩))

/-- `pd.melt` (lines 21-22): stacks the column blocks of all value
columns, column-major, exactly as pandas does. -/
def meltRaw (t : WideTable) : List ObsRaw :=
  t.valueCols.enum.flatMap (fun p => meltCol p.2 p.1 t.rows)

/-- The digit characters are mapped to the number they denote. -/
def digitsToNat (l : List Char) : Nat :=
  l.foldl (fun n c => 10 * n + (c.toNat - 48)) 0

/-- The first maximal run of digit characters of a character list, the
semantics of the regular expression extract on line 25. -/
def firstRun : List Char → Option (List Char)
  | [] => none
  | c :: cs => if c.isDigit then some (c :: cs.takeWhile Char.isDigit) else firstRun cs

/-- Line 25: the first maximal digit run of a column label, as a number;
`none` models the NaN produced when the label has no digit at all. -/
def firstDigitRun (s : String) : Option Nat :=
  (firstRun s.data).map digitsToNat

/-- A non-empty all-digit character list parsed as a number, otherwise
`none`. -/
def parseDigits (l : List Char) : Option Nat :=
  if l.isEmpty then none
  else if l.all Char.isDigit then some (digitsToNat l) else none

/-- Splits a character list at its first dot, when there is one. -/
def splitOnDot : List Char → List Char × Option (List Char)
  | [] => ([], none)
  | c :: cs =>
    if c = '.' then ([], some cs)
    else
      let p := splitOnDot cs
      (c :: p.1, p.2)

/-- Model of `pd.to_numeric(..., errors = 'coerce')` on one raw text cell
(line 28): an optional minus sign followed by a decimal numeral parses to
its rational value; anything else coerces to `none` (NaN), never to an
error. -/
def toNumeric (s : String) : Option ℚ :=
  let cs := s.data
  let signed : Bool × List Char :=
    match cs with
    | '-' :: rest => (true, rest)
    | other => (false, other)
  let body := splitOnDot signed.2
  match body.2 with
  | none =>
    match parseDigits body.1 with
    | some n => some (if signed.1 then -(n : ℚ) else (n : ℚ))
    | none => none
  | some frac =>
    match parseDigits body.1, parseDigits frac with
    | some n, some m =>
      let q : ℚ := (n : ℚ) + (m : ℚ) / ((10 : ℚ) ^ frac.length)
      some (if signed.1 then -q else q)
    | _, _ => none

/-- Line 25: the `Year` column overwritten with its extracted digit run. -/
def yearStep (o : ObsRaw) : ObsY :=
  ⟨o.meta, firstDigitRun o.yearLabel, o.rawValue⟩

/-- Line 28: the `Temperature Change` column coerced to numeric. -/
def tempStep (o : ObsY) : Obs :=
  ⟨o.meta, o.year, toNumeric o.rawValue⟩

/-- `melted_data` after lines 21-28: melt, then coerce `Year`, then
coerce `Temperature Change`. -/
def melted_data (t : WideTable) : List Obs :=
  ((meltRaw t).map yearStep).map tempStep

/-- Line 37: the date-range predicate.  A NaN `Year` fails both pandas
comparisons, hence the row is dropped. -/
def dateFilter (startYear endYear : Nat) (o : Obs) : Bool :=
  match o.year with
  | some y => decide (startYear ≤ y) && decide (y ≤ endYear)
  | none => false

/-- Line 43: `Country.isin(selected_countries)`. -/
def countryFilter (selected_countries : List String) (o : Obs) : Bool :=
  selected_countries.contains o.meta.country

/-- Line 47: exact indicator match. -/
def indicatorFilter (selected_indicator : String) (o : Obs) : Bool :=
  o.meta.indicator == selected_indicator

/-- Line 81: the temperature-range predicate.  A NaN value fails both
comparisons, hence the row is dropped. -/
def tempFilter (lo hi : ℚ) (o : Obs) : Bool :=
  match o.temp with
  | some v => decide (lo ≤ v) && decide (v ≤ hi)
  | none => false

/-- `filtered_data` after lines 37, 43 and 47: date, country and
indicator filters, in the code's order, before the temperature filter. -/
def filtered_data3 (t : WideTable) (startYear endYear : Nat)
    (selected_countries : List String) (selected_indicator : String) : List Obs :=
  (((melted_data t).filter (dateFilter startYear endYear)).filter
      (countryFilter selected_countries)).filter
    (indicatorFilter selected_indicator)

/-- `filtered_data` after line 81: all four filters in the code's order. -/
def filtered_data (t : WideTable) (startYear endYear : Nat)
    (selected_countries : List String) (selected_indicator : String)
    (lo hi : ℚ) : List Obs :=
  (filtered_data3 t startYear endYear selected_countries selected_indicator).filter
    (tempFilter lo hi)

/-- A list of filter predicates applied one after the other, left to
right. -/
def applyFilters (ps : List (Obs → Bool)) (l : List Obs) : List Obs :=
  ps.foldl (fun acc p => acc.filter p) l

/-- The `Temperature Change` column of a view. -/
def tempColumn (view : List Obs) : List (Option ℚ) :=
  view.map Obs.temp

/-- The non-NaN entries of a float column, the values pandas `skipna`
reductions actually see. -/
def validValues (s : List (Option ℚ)) : List ℚ :=
  s.filterMap id

/-- Pandas `Series.mean()` (line 90): NaN for an empty or all-NaN
column, else the mean of the valid values. -/
def seriesMean (s : List (Option ℚ)) : Option ℚ :=
  let v := validValues s
  if v.isEmpty then none else some (v.sum / (v.length : ℚ))

/-- Insertion into a sorted rational list. -/
def insertVal (x : ℚ) : List ℚ → List ℚ
  | [] => [x]
  | y :: ys => if x ≤ y then x :: y :: ys else y :: insertVal x ys

/-- Sorting of the valid values, as the median computation needs. -/
def sortVals (l : List ℚ) : List ℚ :=
  l.foldr insertVal []

/-- Pandas `Series.median()` (line 91): NaN for an empty or all-NaN
column; middle element for odd length, mean of the two middle elements
for even length. -/
def seriesMedian (s : List (Option ℚ)) : Option ℚ :=
  let v := sortVals (validValues s)
  if v.isEmpty then none
  else if v.length % 2 = 1 then v[v.length / 2]?
  else
    match v[v.length / 2 - 1]?, v[v.length / 2]? with
    | some a, some b => some ((a + b) / 2)
    | _, _ => none

/-- Pandas `Series.std()` (line 92) uses `ddof = 1`, so it is NaN when
fewer than two valid values remain.  The rational square root is not
expressible here, so the statistic is represented by its square, the
sample variance: the real square root is defined and non-NaN exactly on
the non-NaN values of this function, so the std is missing iff this is
`none`. -/
def seriesStdSquared (s : List (Option ℚ)) : Option ℚ :=
  let v := validValues s
  if v.length < 2 then none
  else
    let n : ℚ := (v.length : ℚ)
    let m := v.sum / n
    some ((v.map (fun x => (x - m) ^ 2)).sum / (n - 1))

/-- Pandas `Series.max()` (line 93): NaN for an empty or all-NaN column. -/
def seriesMax (s : List (Option ℚ)) : Option ℚ :=
  (validValues s).max?

/-- Pandas `Series.min()` (line 94): NaN for an empty or all-NaN column. -/
def seriesMin (s : List (Option ℚ)) : Option ℚ :=
  (validValues s).min?

/-- The f-string display of one statistic (lines 90-94): a pandas NaN
is rendered by Python as the text nan. -/
def statText (label : String) (v : Option ℚ) : String :=
  label ++ (match v with | none => "nan" | some q => toString q)

/-- Lines 67-76: `temperature_min` / `temperature_max` from the current
filtered view; if either is NaN (no valid values) the pair defaults to
(0.0, 1.0); the pair is then sorted. -/
def initial_temperature_range (view : List Obs) : ℚ × ℚ :=
  match seriesMin (tempColumn view), seriesMax (tempColumn view) with
  | some lo, some hi => if lo ≤ hi then (lo, hi) else (hi, lo)
  | _, _ => (0, 1)

/-- Lines 108-113: the static country-to-region table, verbatim. -/
def actual_region_mapping : List (String × String) :=
  [("Afghanistan, Islamic Rep. of", "Asia"),
   ("Albania", "Europe"),
   ("Algeria", "Africa")]

/-- Dictionary lookup used by `Series.map` on line 116: an unmapped
country gives `none` (NaN), never an error. -/
def regionOf (c : String) : Option String :=
  List.lookup c actual_region_mapping

/-- Line 116: the `Aggregated` column added next to each row; `none`
models the NaN of an unmapped country. -/
def addAggregated (view : List Obs) : List (Obs × Option String) :=
  view.map (fun o => (o, regionOf o.meta.country))

/-- The groupby key of a row: `groupby(['Aggregated', 'Year'])` with the
default `dropna = True` keeps only rows where both keys are non-NaN. -/
def aggKey (p : Obs × Option String) : Option (String × Nat) :=
  match p.2, p.1.year with
  | some g, some y => some (g, y)
  | _, _ => none

/-- Lexicographic order on groupby keys, as pandas sorts groups. -/
def keyLe (a b : String × Nat) : Bool :=
  if a.1 = b.1 then a.2 ≤ b.2 else decide (a.1 < b.1)

/-- Insertion into a key list sorted by `keyLe`. -/
def insertKey (k : String × Nat) : List (String × Nat) → List (String × Nat)
  | [] => [k]
  | x :: xs => if keyLe k x then k :: x :: xs else x :: insertKey k xs

/-- Sorting of the distinct groupby keys. -/
def sortKeys (l : List (String × Nat)) : List (String × Nat) :=
  l.foldr insertKey []

/-- The `Temperature Change` series of one (Group, Year) bucket. -/
def bucketSeries (rows : List (Obs × Option String)) (k : String × Nat) :
    List (Option ℚ) :=
  rows.filterMap (fun p => if aggKey p = some k then some p.1.temp else none)

/-- `custom_mean` (lines 119-123).  At its only call site the series is
the already-numeric `Temperature Change` column, on which
`pd.to_numeric` is the identity and cannot raise, so the reducer is the
NaN-skipping mean; an all-NaN bucket gives NaN, never zero. -/
def custom_mean (s : List (Option ℚ)) : Option ℚ :=
  seriesMean s

/-- `aggregated_data` (line 126): group the rows by the non-NaN
(Aggregated, Year) keys, sort the keys, and reduce each bucket's
`Temperature Change` with `custom_mean`. -/
def aggregated_data (view : List Obs) : List (String × Nat × Option ℚ) :=
  let rows := addAggregated view
  (sortKeys (rows.filterMap aggKey).dedup).map
    (fun k => (k.1, k.2, custom_mean (bucketSeries rows k)))

/-- Lines 105-131 as one step: the selector `aggregation_level` is read
on line 105 but the aggregation itself never consults it — it reappears
only in the chart title on line 131 — so the produced table ignores it. -/
def aggregationStep (aggregation_level : String) (view : List Obs) :
    List (String × Nat × Option ℚ) :=
  aggregated_data view

/-- Sample metadata row used by concrete witnesses. -/
def meta1 : Meta :=
  ⟨"1", "Albania", "AL", "ALB", "TC", "Degree Celsius", "FAO", "ECCS", "n", "d"⟩

/-- Sample metadata row for a second country. -/
def meta2 : Meta :=
  ⟨"2", "Algeria", "DZ", "DZA", "TC", "Degree Celsius", "FAO", "ECCS", "n", "d"⟩

/-- A small concrete wide table: two records, two year columns, one
non-numeric cell. -/
def wTable : WideTable :=
  ⟨["F2020", "F2021"], [⟨meta1, ["1", "NA"]⟩, ⟨meta2, ["2", "3"]⟩]⟩

/-- A wide table whose single value column label holds no digit run. -/
def badTable : WideTable :=
  ⟨["NoDigits"], [⟨meta1, ["1"]⟩]⟩

/-- A melted row, before value coercion, holding a non-numeric cell. -/
def obsYNA : ObsY :=
  ⟨meta1, some 2021, "NA"⟩

/-- A one-row view used to evaluate the aggregation step concretely. -/
def sampleView : List Obs :=
  [⟨meta1, some 2020, some 1⟩]

/-- A one-row view whose only temperature value is missing. -/
def obsNA : Obs :=
  ⟨meta1, some 2021, none⟩

/-! ## Helper lemmas -/

/-- Folding a list of filters is filtering by their conjunction. -/
theorem applyFilters_eq_filter_all :
    ∀ (ps : List (Obs → Bool)) (l : List Obs),
      applyFilters ps l = l.filter (fun x => ps.all (fun p => p x)) := by
  intro ps
  induction ps with
  | nil =>
    intro l
    simp [applyFilters]
  | cons p ps ih =>
    intro l
    have h1 : applyFilters (p :: ps) l = applyFilters ps (l.filter p) := rfl
    rw [h1, ih, List.filter_filter]
    exact List.filter_congr (fun x _ => by simp [List.all_cons, Bool.and_comm])

/-- The conjunction of a list of predicates at a point is invariant
under permutation of the list. -/
theorem all_apply_perm {ps qs : List (Obs → Bool)} (h : ps.Perm qs) (x : Obs) :
    ps.all (fun p => p x) = qs.all (fun p => p x) := by
  induction h with
  | nil => rfl
  | cons p h ih => simp [List.all_cons, ih]
  | swap p q l => simp [List.all_cons, Bool.and_left_comm]
  | trans h1 h2 ih1 ih2 => rw [ih1, ih2]

/-- One melt block has one output row per input row when the column
index is in range for every row. -/
theorem meltCol_length (label : String) (j : Nat) :
    ∀ rows : List RawRecord, (∀ r ∈ rows, j < r.cells.length) →
      (meltCol label j rows).length = rows.length := by
  intro rows
  induction rows with
  | nil =>
    intro _
    rfl
  | cons r rs ih =>
    intro h
    obtain ⟨c, hj⟩ : ∃ c, r.cells[j]? = some c :=
      ⟨_, List.getElem?_eq_getElem (h r (by simp))⟩
    simp only [meltCol, List.filterMap_cons, hj, Option.map_some]
    have := ih (fun x hx => h x (by simp [hx]))
    simp only [meltCol] at this
    simp [this]

/-- The stacked melt blocks of the columns enumerated from `i` have
`rows × cols` rows when every row is wide enough. -/
theorem melt_blocks_length :
    ∀ (cols : List String) (i : Nat) (rows : List RawRecord),
      (∀ r ∈ rows, i + cols.length ≤ r.cells.length) →
      ((cols.enumFrom i).flatMap (fun p => meltCol p.2 p.1 rows)).length =
        rows.length * cols.length := by
  intro cols
  induction cols with
  | nil =>
    intro i rows _
    simp
  | cons c cs ih =>
    intro i rows h
    rw [List.enumFrom_cons, List.flatMap_cons, List.length_append]
    rw [meltCol_length c i rows (fun r hr => by have := h r hr; simp at this; omega)]
    rw [ih (i + 1) rows (fun r hr => by have := h r hr; simp at this ⊢; omega)]
    simp [Nat.mul_succ]
    omega

/-- Appending a NaN to a column leaves its valid values unchanged. -/
theorem validValues_append_none (l : List (Option ℚ)) :
    validValues (l ++ [none]) = validValues l := by
  simp [validValues]

/-- Dropping only rows the partial map anyway sends to `none` does not
change a `filterMap`. -/
theorem filter_filterMap_of_none {α β : Type} (p : α → Bool) (f : α → Option β) :
    ∀ l : List α, (∀ x, p x = false → f x = none) →
      (l.filter p).filterMap f = l.filterMap f := by
  intro l h
  induction l with
  | nil => rfl
  | cons a l ih =>
    by_cases hp : p a = true
    · simp [List.filter_cons, hp, List.filterMap_cons, ih]
    · have hfa : f a = none := h a (by simp at hp; simp [hp])
      simp [List.filter_cons, hp, List.filterMap_cons, hfa, ih]

/-- A row whose `Aggregated` entry is NaN has no groupby key. -/
theorem aggKey_none_of_not_isSome (p : Obs × Option String)
    (hp : p.2.isSome = false) : aggKey p = none := by
  cases hq : p.2 with
  | none =>
    simp only [aggKey]
    rw [hq]
  | some g =>
    rw [hq] at hp
    simp at hp

/-- The mean of the singleton series holding the value one. -/
theorem custom_mean_single : custom_mean [some 1] = some 1 := by
  simp [custom_mean, seriesMean, validValues]

/-! ## Claim theorems -/

/-- C1: for every Observation table and every choice of the four filter
parameters, applying the four filter predicates in any permutation
yields the same Filtered View as applying them in the code's order
(date, country, indicator, temperature), each being a pure predicate
over a single Observation's fields. -/
theorem filters_commute (t : WideTable) (startYear endYear : Nat)
    (selected_countries : List String) (selected_indicator : String) (lo hi : ℚ)
    (ps : List (Obs → Bool))
    (h : ps.Perm [dateFilter startYear endYear, countryFilter selected_countries,
      indicatorFilter selected_indicator, tempFilter lo hi]) :
    applyFilters ps (melted_data t) =
      filtered_data t startYear endYear selected_countries selected_indicator lo hi := by
  rw [applyFilters_eq_filter_all]
  have hc : filtered_data t startYear endYear selected_countries selected_indicator lo hi =
      applyFilters [dateFilter startYear endYear, countryFilter selected_countries,
        indicatorFilter selected_indicator, tempFilter lo hi] (melted_data t) := rfl
  rw [hc, applyFilters_eq_filter_all]
  exact List.filter_congr (fun x _ => all_apply_perm h x)

/-- Witness for C1: the four concrete filters applied in reverse order
give the same view of the sample table as the code's order. -/
theorem filters_commute_witness :
    ([dateFilter 2020 2021, countryFilter ["Albania", "Algeria"], indicatorFilter "TC",
        tempFilter 0 3].reverse).Perm
      [dateFilter 2020 2021, countryFilter ["Albania", "Algeria"], indicatorFilter "TC",
        tempFilter 0 3] ∧
    applyFilters
        ([dateFilter 2020 2021, countryFilter ["Albania", "Algeria"], indicatorFilter "TC",
          tempFilter 0 3].reverse) (melted_data wTable) =
      filtered_data wTable 2020 2021 ["Albania", "Algeria"] "TC" 0 3 :=
  ⟨List.reverse_perm _,
    filters_commute wTable 2020 2021 ["Albania", "Algeria"] "TC" 0 3 _ (List.reverse_perm _)⟩

/-- C2: for every valid Raw Record table (each row as wide as the
value-column list), the melt produces exactly one Observation per
(record, year-column) pair, so the row count is the product. -/
theorem melt_row_count (t : WideTable)
    (h : ∀ r ∈ t.rows, r.cells.length = t.valueCols.length) :
    (melted_data t).length = t.rows.length * t.valueCols.length := by
  have hm : (meltRaw t).length = t.rows.length * t.valueCols.length := by
    have hb := melt_blocks_length t.valueCols 0 t.rows (fun r hr => by rw [h r hr]; omega)
    have he : meltRaw t = (t.valueCols.enumFrom 0).flatMap (fun p => meltCol p.2 p.1 t.rows) :=
      rfl
    rw [he, hb]
  simp [melted_data, hm]

/-- Witness for C2: the sample table is valid, and its four melted rows
are its two records times its two year columns. -/
theorem melt_row_count_witness :
    (∀ r ∈ wTable.rows, r.cells.length = wTable.valueCols.length) ∧
    (melted_data wTable).length = wTable.rows.length * wTable.valueCols.length :=
  ⟨by decide, melt_row_count wTable (by decide)⟩

/-- C3: the country filter with an empty selected set keeps nothing: on
any upstream view it yields the empty view, and the whole filter
pipeline with an empty country set yields the empty Filtered View. -/
theorem empty_country_set_matches_nothing :
    (∀ view : List Obs, view.filter (countryFilter []) = []) ∧
    (∀ (t : WideTable) (startYear endYear : Nat) (selected_indicator : String) (lo hi : ℚ),
      filtered_data t startYear endYear [] selected_indicator lo hi = []) := by
  have h : ∀ view : List Obs, view.filter (countryFilter []) = [] := by
    intro view
    induction view with
    | nil => rfl
    | cons o l ih => simp [List.filter_cons, countryFilter, ih]
  refine ⟨h, fun t s e ind lo hi => ?_⟩
  simp [filtered_data, filtered_data3, h]

/-- C4: a cell that fails numeric coercion becomes a missing
`Temperature Change` (never an error), and that missing value is
excluded — not treated as zero — by the statistics mean and by the
aggregation reducer. -/
theorem nonnumeric_cell_missing (o : ObsY) (h : toNumeric o.rawValue = none)
    (l : List (Option ℚ)) :
    (tempStep o).temp = none ∧
    seriesMean (l ++ [(tempStep o).temp]) = seriesMean l ∧
    custom_mean (l ++ [(tempStep o).temp]) = custom_mean l := by
  have ht : (tempStep o).temp = none := by simp [tempStep, h]
  refine ⟨ht, ?_, ?_⟩ <;>
    · rw [ht]
      simp [seriesMean, custom_mean, validValues_append_none, validValues]

/-- Witness for C4: the cell NA coerces to a missing value that leaves
mean and reducer of a concrete column unchanged. -/
theorem nonnumeric_cell_missing_witness :
    toNumeric obsYNA.rawValue = none ∧
    ((tempStep obsYNA).temp = none ∧
      seriesMean ([some 1] ++ [(tempStep obsYNA).temp]) = seriesMean [some 1] ∧
      custom_mean ([some 1] ++ [(tempStep obsYNA).temp]) = custom_mean [some 1]) :=
  ⟨rfl, nonnumeric_cell_missing obsYNA rfl [some 1]⟩

/-- Counterexample to C5: a value column whose label has no digit run is
neither skipped nor an error — the reshaper emits its Observation with
an undefined (NaN) `Year`. -/
theorem year_no_digit_run_cex :
    melted_data badTable = [⟨meta1, none, some 1⟩] := by decide

/-- C5 as amended: every generated Observation's `Year` is the first
maximal digit run of its source column label, a label with no digit run
giving a missing `Year`; no column is skipped and nothing fails, so the
coerced table is exactly the melted table with both coercions applied
rowwise. -/
theorem year_extraction_amended (t : WideTable) :
    melted_data t =
      (meltRaw t).map (fun o => ⟨o.meta, firstDigitRun o.yearLabel, toNumeric o.rawValue⟩) ∧
    (melted_data t).length = (meltRaw t).length := by
  constructor
  · show ((meltRaw t).map yearStep).map tempStep = _
    rw [List.map_map]
    rfl
  · simp [melted_data]

/-- C6: when the view left by the date, country and indicator filters
has no valid numeric `Temperature Change` at all, the temperature-range
bounds default to (0.0, 1.0) and the step completes. -/
theorem temp_bounds_default (t : WideTable) (startYear endYear : Nat)
    (selected_countries : List String) (selected_indicator : String)
    (h : validValues (tempColumn
      (filtered_data3 t startYear endYear selected_countries selected_indicator)) = []) :
    initial_temperature_range
      (filtered_data3 t startYear endYear selected_countries selected_indicator) = (0, 1) := by
  simp [initial_temperature_range, seriesMin, seriesMax, h]

/-- Witness for C6: filtering the sample table to a country that does
not occur leaves no valid values, and the bounds are (0, 1). -/
theorem temp_bounds_default_witness :
    validValues (tempColumn (filtered_data3 wTable 2020 2021 ["Nowhere"] "TC")) = [] ∧
    initial_temperature_range (filtered_data3 wTable 2020 2021 ["Nowhere"] "TC") = (0, 1) :=
  ⟨by decide, temp_bounds_default wTable 2020 2021 ["Nowhere"] "TC" (by decide)⟩

/-- Counterexample to C7: on an empty `Temperature Change` column the
mean is the missing value NaN and the display line renders that NaN as
the text nan — a silently propagated NaN, not an explicit undefined
state. -/
theorem stats_nan_display_cex :
    statText "Mean Temperature Change: " (seriesMean (tempColumn ([] : List Obs))) =
      "Mean Temperature Change: nan" ∧
    seriesMean (tempColumn ([] : List Obs)) = none :=
  ⟨rfl, rfl⟩

/-- C7 as amended: on a view whose `Temperature Change` column is empty
after excluding missing values, each of the five statistics evaluates
to the missing value NaN — never a numeric sentinel such as zero — and
the f-string display renders that NaN as the text nan rather than an
explicit undefined label. -/
theorem stats_empty_all_missing (view : List Obs)
    (h : validValues (tempColumn view) = []) :
    seriesMean (tempColumn view) = none ∧
    seriesMedian (tempColumn view) = none ∧
    seriesStdSquared (tempColumn view) = none ∧
    seriesMax (tempColumn view) = none ∧
    seriesMin (tempColumn view) = none ∧
    statText "Mean Temperature Change: " (seriesMean (tempColumn view)) =
      "Mean Temperature Change: nan" := by
  refine ⟨?_, ?_, ?_, ?_, ?_, ?_⟩ <;>
    simp [seriesMean, seriesMedian, seriesStdSquared, seriesMax, seriesMin, sortVals,
      statText, h]

/-- Witness for C7 as amended: the empty view has an empty column and
all five statistics are missing. -/
theorem stats_empty_all_missing_witness :
    validValues (tempColumn ([] : List Obs)) = [] ∧
    (seriesMean (tempColumn ([] : List Obs)) = none ∧
      seriesMedian (tempColumn ([] : List Obs)) = none ∧
      seriesStdSquared (tempColumn ([] : List Obs)) = none ∧
      seriesMax (tempColumn ([] : List Obs)) = none ∧
      seriesMin (tempColumn ([] : List Obs)) = none ∧
      statText "Mean Temperature Change: " (seriesMean (tempColumn ([] : List Obs))) =
        "Mean Temperature Change: nan") :=
  ⟨rfl, stats_empty_all_missing [] rfl⟩

/-- C8: a (Group, Year) bucket whose series holds only missing values is
reduced by `custom_mean` to the missing value — never an error, and
never zero obtained by counting the excluded values as zero. -/
theorem custom_mean_all_missing_none (rows : List (Obs × Option String))
    (k : String × Nat) (h : ∀ x ∈ bucketSeries rows k, x = none) :
    custom_mean (bucketSeries rows k) = none := by
  have hv : validValues (bucketSeries rows k) = [] := by
    rw [validValues, List.filterMap_eq_nil_iff]
    exact fun a ha => h a ha
  simp [custom_mean, seriesMean, hv]

/-- Witness for C8: the bucket of the one-row view whose only value is
missing reduces to the missing value. -/
theorem custom_mean_all_missing_none_witness :
    (∀ x ∈ bucketSeries (addAggregated [obsNA]) ("Europe", 2021), x = none) ∧
    custom_mean (bucketSeries (addAggregated [obsNA]) ("Europe", 2021)) = none :=
  ⟨by decide, custom_mean_all_missing_none (addAggregated [obsNA]) ("Europe", 2021) (by decide)⟩

/-- C9 refuted by the code: the aggregation never consults the selected
level — every level produces the identical Aggregated table, and in
particular the level Country still groups Albania under Europe through
the one static region mapping. -/
theorem aggregation_level_ignored :
    (∀ (levelA levelB : String) (view : List Obs),
      aggregationStep levelA view = aggregationStep levelB view) ∧
    aggregationStep "Country" sampleView = aggregationStep "Region" sampleView ∧
    aggregationStep "Country" sampleView = [("Europe", 2020, some 1)] := by
  refine ⟨fun _ _ _ => rfl, rfl, ?_⟩
  have h1 : aggregationStep "Country" sampleView =
      [("Europe", 2020, custom_mean [some 1])] := rfl
  rw [h1, custom_mean_single]

/-- C10: the `Aggregated` column is assigned to every row without error
(one entry per row, NaN for an unmapped country), and the groupby then
drops every row whose country is unmapped: restricting the view to the
mapped countries first changes nothing in the Aggregated table. -/
theorem unmapped_countries_dropped :
    ∀ view : List Obs,
      (addAggregated view).length = view.length ∧
      aggregated_data (view.filter (fun o => (regionOf o.meta.country).isSome)) =
        aggregated_data view := by
  intro view
  constructor
  · simp [addAggregated]
  · have h1 : addAggregated (view.filter (fun o => (regionOf o.meta.country).isSome)) =
        (addAggregated view).filter (fun p => p.2.isSome) := by
      show List.map _ (List.filter _ view) = List.filter _ (List.map _ view)
      rw [List.filter_map]
      rfl
    have h2 : ((addAggregated view).filter (fun p => p.2.isSome)).filterMap aggKey =
        (addAggregated view).filterMap aggKey :=
      filter_filterMap_of_none _ _ _ (fun x hx => aggKey_none_of_not_isSome x hx)
    have h3 : bucketSeries ((addAggregated view).filter (fun p => p.2.isSome)) =
        bucketSeries (addAggregated view) := by
      funext k
      exact filter_filterMap_of_none _ _ _
        (fun x hx => by simp [aggKey_none_of_not_isSome x hx])
    show aggregated_data _ = _
    rw [aggregated_data, aggregated_data, h1, h2, h3]

end Dashboard
